import Mathlib

/-!
Shallow embedding of `src/calibration_plate_designer.py` (the pattern-layout
and geometry-generation engine of the calibration plate designer), together
with theorems checking the specification's claims against it.

Conventions of the embedding:
* Python floats are modelled as real numbers; the arithmetic of every claim
  involves only exact rational values, where IEEE doubles and reals agree.
* `int(x)` is truncation toward zero (`pyInt`), `math.sqrt` is `Real.sqrt`
  (guarded by the same error cases Python raises: `ValueError` for a negative
  argument, `ZeroDivisionError` for division by zero).
* Python code that can raise returns `Except GenErr _`; code that cannot
  raise returns plain values.
* A generator that prints a density warning returns a `Bool` flag recording
  that the warning was emitted.
* `self.parameters.get(key, default)` is modelled by an `Option` argument
  read with `Option.getD`.
-/

set_option maxRecDepth 8000

namespace CalibrationPlate

/-- Python `int(x)` for a float `x`: truncation toward zero. -/
noncomputable def pyInt (x : ℝ) : ℤ :=
  if x < 0 then ⌈x⌉ else ⌊x⌋

/-- Python `max(1, int(x))`, as a natural number (the result is ≥ 1). -/
noncomputable def pyMax1Int (x : ℝ) : ℕ :=
  (max 1 (pyInt x)).toNat

/-- Python `range(0, n, 2)`: the even indices below `n`. -/
def pyRangeStep2 (n : ℕ) : List ℕ :=
  (List.range n).filter (fun i => i % 2 == 0)

/-- The canonical primitive model: every SVG element the generators emit is
one of these shapes (text labels are kept only by their insertion point). -/
inductive Prim where
  | circle (cx cy r : ℝ) (filled : Bool)
  | rect (x y w h : ℝ) (filled : Bool)
  | line (x1 y1 x2 y2 strokeWidth : ℝ)
  | polyline (points : List (ℝ × ℝ)) (closed : Bool)
  | text (x y : ℝ)

/-- Errors a generator can raise (Python `ZeroDivisionError` / `ValueError`). -/
inductive GenErr where
  | zeroDivision
  | mathDomain
deriving DecidableEq

/-- Errors of the whole `generate_svg` pipeline. -/
inductive DesignError where
  | invalidDimension
  | generationError (e : GenErr)

/-- Module constant `MAX_ELEMENTS_PER_PATTERN = 10000`. -/
def MAX_ELEMENTS_PER_PATTERN : ℕ := 10000

/-- `CalibrationPlateDesigner.calculate_section_dimensions`: the four section
origins `[top-left, top-right, bottom-left, bottom-right]` plus the common
section width and height. -/
noncomputable def calculate_section_dimensions (plate_w plate_h margin : ℝ) :
    List (ℝ × ℝ) × ℝ × ℝ :=
  let available_w := plate_w - 2 * margin
  let available_h := plate_h - 2 * margin
  let section_w := available_w / 2
  let section_h := available_h / 2
  ([(margin, margin),
    (margin + section_w, margin),
    (margin, margin + section_h),
    (margin + section_w, margin + section_h)],
   section_w, section_h)

/-- The density-clamp recomputation shared (verbatim, with `cap` the literal
used at each site) by the resolution and distortion generators:
`max_cols = int(math.sqrt(cap * section_width / section_height))`,
`max_rows = int(cap / max_cols)`, then `min` against the requested values.
Raises like Python: dividing by `section_height = 0` or `max_cols = 0` is a
`ZeroDivisionError`, `math.sqrt` of a negative is a `ValueError`. -/
noncomputable def densityGuardClamp (cap : ℕ) (section_width section_height : ℝ)
    (cols rows : ℕ) : Except GenErr (ℕ × ℕ) :=
  if section_height = 0 then .error .zeroDivision
  else if (cap : ℝ) * section_width / section_height < 0 then .error .mathDomain
  else
    let max_cols := (pyInt (Real.sqrt ((cap : ℝ) * section_width / section_height))).toNat
    if max_cols = 0 then .error .zeroDivision
    else
      let max_rows := (pyInt ((cap : ℝ) / (max_cols : ℝ))).toNat
      .ok (min cols max_cols, min rows max_rows)

/-- The cols/rows (and warned flag) computed by
`ResolutionPatternGenerator.generate_svg_elements` before emission: fixed
`dot_spacing = 0.25`, then the density guard with cap
`MAX_ELEMENTS_PER_PATTERN` when `cols * rows` exceeds it. -/
noncomputable def resolutionColsRows (section_width section_height : ℝ) :
    Except GenErr (ℕ × ℕ × Bool) :=
  let dot_spacing : ℝ := 0.25
  let cols := pyMax1Int (section_width / dot_spacing)
  let rows := pyMax1Int (section_height / dot_spacing)
  if cols * rows > MAX_ELEMENTS_PER_PATTERN then
    match densityGuardClamp MAX_ELEMENTS_PER_PATTERN section_width section_height cols rows with
    | .error e => .error e
    | .ok (c, r) => .ok (c, r, true)
  else .ok (cols, rows, false)

/-- The dot emission loop of `ResolutionPatternGenerator.generate_svg_elements`
for given (post-guard) cols and rows: recomputed spacings, centered start, and
`cols * rows` filled circles of radius `dot_diameter / 2 = 0.0625`. -/
noncomputable def resolutionDotGrid (x_offset y_offset section_width section_height : ℝ)
    (cols rows : ℕ) : List Prim :=
  let dot_diameter : ℝ := 0.125
  let actual_spacing_x := if 1 < cols then section_width / ((max 1 (cols - 1) : ℕ) : ℝ) else 0
  let actual_spacing_y := if 1 < rows then section_height / ((max 1 (rows - 1) : ℕ) : ℝ) else 0
  let start_x := if 1 < cols then
      x_offset + (section_width - ((cols : ℝ) - 1) * actual_spacing_x) / 2
    else x_offset + section_width / 2
  let start_y := if 1 < rows then
      y_offset + (section_height - ((rows : ℝ) - 1) * actual_spacing_y) / 2
    else y_offset + section_height / 2
  (List.range rows).flatMap (fun row : ℕ =>
    (List.range cols).map (fun col : ℕ =>
      Prim.circle (if 1 < cols then start_x + (col : ℝ) * actual_spacing_x else start_x)
                  (if 1 < rows then start_y + (row : ℝ) * actual_spacing_y else start_y)
                  (dot_diameter / 2) true))

/-- `ResolutionPatternGenerator.generate_svg_elements`. The generator reads
fixed values `dot_spacing = 0.25`, `dot_diameter = 0.125` and never consults
`self.parameters`, so the two `Option` arguments are ignored exactly as the
source ignores the parameter dictionary. -/
noncomputable def resolution_generate_svg_elements (dot_spacing? dot_diameter? : Option ℝ)
    (x_offset y_offset section_width section_height : ℝ) :
    Except GenErr (List Prim × Bool) :=
  match resolutionColsRows section_width section_height with
  | .error e => .error e
  | .ok (cols, rows, warned) =>
      .ok (resolutionDotGrid x_offset y_offset section_width section_height cols rows, warned)

/-- `ResolutionPatternGenerator.generate_dxf_elements`: same fixed values and
same cols/rows computation; each dot becomes a circle entity plus a 20-point
closed polyline hatch path. The parameter dictionary is again ignored. -/
noncomputable def resolution_generate_dxf_elements (dot_spacing? dot_diameter? : Option ℝ)
    (x_offset y_offset section_width section_height : ℝ) :
    Except GenErr (List Prim × Bool) :=
  let dot_diameter : ℝ := 0.125
  match resolutionColsRows section_width section_height with
  | .error e => .error e
  | .ok (cols, rows, warned) =>
      .ok ((resolutionDotGrid x_offset y_offset section_width section_height cols rows).flatMap
        (fun p =>
          match p with
          | Prim.circle cx cy r f =>
              [Prim.circle cx cy r f,
               Prim.polyline ((List.range 20).map (fun i : ℕ =>
                 (cx + dot_diameter / 2 * Real.cos ((i : ℝ) * (2 * Real.pi / 20)),
                  cy + dot_diameter / 2 * Real.sin ((i : ℝ) * (2 * Real.pi / 20))))) true]
          | q => [q]), warned)

/-- The cols/rows (and warned flag) computed by
`DistortionPatternGenerator.generate_svg_elements`: `grid_size` from the
parameters (default 1.0), the filled-square count `cols * rows // 2` checked
against the cap, and on overflow the clamp with
`max_total = MAX_ELEMENTS_PER_PATTERN * 2`. -/
noncomputable def distortionColsRows (grid_size? : Option ℝ)
    (section_width section_height : ℝ) : Except GenErr (ℕ × ℕ × Bool) :=
  let grid_size := grid_size?.getD 1.0
  if grid_size = 0 then .error .zeroDivision
  else
    let cols := pyMax1Int (section_width / grid_size)
    let rows := pyMax1Int (section_height / grid_size)
    if cols * rows / 2 > MAX_ELEMENTS_PER_PATTERN then
      match densityGuardClamp (MAX_ELEMENTS_PER_PATTERN * 2) section_width section_height cols rows with
      | .error e => .error e
      | .ok (c, r) => .ok (c, r, true)
    else .ok (cols, rows, false)

/-- The cell emission loop of `DistortionPatternGenerator.generate_svg_elements`
for given (post-guard) cols and rows: exact-fit cell sizes anchored at the
section origin, one filled rect per cell with `(row + col) % 2 == 0`. -/
noncomputable def distortionCells (x_offset y_offset section_width section_height : ℝ)
    (cols rows : ℕ) : List Prim :=
  let actual_grid_w := section_width / (cols : ℝ)
  let actual_grid_h := section_height / (rows : ℝ)
  let start_x := x_offset
  let start_y := y_offset
  (List.range rows).flatMap (fun row : ℕ =>
    (List.range cols).filterMap (fun col : ℕ =>
      if (row + col) % 2 = 0 then
        some (Prim.rect (start_x + (col : ℝ) * actual_grid_w)
                        (start_y + (row : ℝ) * actual_grid_h)
                        actual_grid_w actual_grid_h true)
      else none))

/-- `DistortionPatternGenerator.generate_svg_elements`. -/
noncomputable def distortion_generate_svg_elements (grid_size? : Option ℝ)
    (x_offset y_offset section_width section_height : ℝ) :
    Except GenErr (List Prim × Bool) :=
  match distortionColsRows grid_size? section_width section_height with
  | .error e => .error e
  | .ok (cols, rows, warned) =>
      .ok (distortionCells x_offset y_offset section_width section_height cols rows, warned)

/-- The `orientation` parameter of the single line-pair mode. -/
inductive LPOrientation where
  | vertical
  | horizontal
deriving DecidableEq

/-- The `pattern_type` parameter of `LinePairPatternGenerator`. -/
inductive LPMode where
  | single
  | multi
deriving DecidableEq

/-- `LinePairPatternGenerator._generate_single_pattern_svg`: spacing and width
in µm converted to mm, `num_lines = max(1, int(span / spacing_mm))`, density
guard on the drawn-line count `(num_lines + 1) // 2` clamping `num_lines` to
`MAX_ELEMENTS_PER_PATTERN * 2`, exact-fit spacing, and one full-span filled
rect of thickness `width_mm` for every second line index. -/
noncomputable def linePair_single_svg (line_spacing? line_width? : Option ℝ)
    (orientation? : Option LPOrientation)
    (x_offset y_offset section_width section_height : ℝ) :
    Except GenErr (List Prim × Bool) :=
  let line_spacing := line_spacing?.getD 5.0
  let line_width := line_width?.getD 1.0
  let spacing_mm := line_spacing / 1000
  let width_mm := line_width / 1000
  match orientation?.getD .vertical with
  | .vertical =>
    if spacing_mm = 0 then .error .zeroDivision
    else
      let num_lines := pyMax1Int (section_width / spacing_mm)
      let warned := (num_lines + 1) / 2 > MAX_ELEMENTS_PER_PATTERN
      let num_lines := if warned then min num_lines (MAX_ELEMENTS_PER_PATTERN * 2) else num_lines
      let actual_spacing := if 1 < num_lines then
          section_width / ((max 1 (num_lines - 1) : ℕ) : ℝ)
        else section_width
      let start_x := if 1 < num_lines then
          x_offset + (section_width - ((num_lines : ℝ) - 1) * actual_spacing) / 2
        else x_offset + section_width / 2
      .ok ((pyRangeStep2 num_lines).map (fun i : ℕ =>
        let x := if 1 < num_lines then start_x + (i : ℝ) * actual_spacing else start_x
        Prim.rect (x - width_mm / 2) y_offset width_mm section_height true), warned)
  | .horizontal =>
    if spacing_mm = 0 then .error .zeroDivision
    else
      let num_lines := pyMax1Int (section_height / spacing_mm)
      let warned := (num_lines + 1) / 2 > MAX_ELEMENTS_PER_PATTERN
      let num_lines := if warned then min num_lines (MAX_ELEMENTS_PER_PATTERN * 2) else num_lines
      let actual_spacing := if 1 < num_lines then
          section_height / ((max 1 (num_lines - 1) : ℕ) : ℝ)
        else section_height
      let start_y := if 1 < num_lines then
          y_offset + (section_height - ((num_lines : ℝ) - 1) * actual_spacing) / 2
        else y_offset + section_height / 2
      .ok ((pyRangeStep2 num_lines).map (fun i : ℕ =>
        let y := if 1 < num_lines then start_y + (i : ℝ) * actual_spacing else start_y
        Prim.rect x_offset (y - width_mm / 2) section_width width_mm true), warned)

/-- One entry of the multi-pattern configuration table. -/
structure LPConfig where
  spacing_um : ℝ
  target_lines : ℕ
  orientation : ℕ

/-- The fixed `pattern_configs` table of the multi line-pair mode. -/
noncomputable def pattern_configs : List LPConfig :=
  [⟨7.0, 3, 0⟩, ⟨5.0, 5, 45⟩, ⟨3.0, 7, 90⟩,
   ⟨2.0, 10, 0⟩, ⟨1.0, 15, 45⟩, ⟨0.7, 20, 90⟩,
   ⟨0.5, 12, 0⟩, ⟨0.3, 8, 45⟩, ⟨0.25, 6, 90⟩]

section
open Classical

/-- `LinePairPatternGenerator._generate_targeted_lines_svg`: a 5% inset margin
on every side, `num_lines = min(target_lines, 25)`, and per orientation the
lines that pass the in-bounds check. -/
noncomputable def generate_targeted_lines_svg
    (x_offset y_offset width height spacing_um line_width_um : ℝ)
    (angle : ℕ) (target_lines : ℕ) : List Prim :=
  let line_width_mm := line_width_um / 1000
  let margin := min width height * 0.05
  let pattern_width := width - 2 * margin
  let pattern_height := height - 2 * margin
  let pattern_x := x_offset + margin
  let pattern_y := y_offset + margin
  let num_lines := min target_lines 25
  if angle = 0 then
    if 0 < num_lines ∧ 0 < pattern_height then
      let line_spacing := pattern_height / (num_lines : ℝ)
      (List.range num_lines).filterMap (fun i : ℕ =>
        let y := pattern_y + (i : ℝ) * line_spacing
        if y + line_width_mm ≤ pattern_y + pattern_height then
          some (Prim.rect pattern_x y pattern_width line_width_mm true)
        else none)
    else []
  else if angle = 90 then
    if 0 < num_lines ∧ 0 < pattern_width then
      let line_spacing := pattern_width / (num_lines : ℝ)
      (List.range num_lines).filterMap (fun i : ℕ =>
        let x := pattern_x + (i : ℝ) * line_spacing
        if x + line_width_mm ≤ pattern_x + pattern_width then
          some (Prim.rect x pattern_y line_width_mm pattern_height true)
        else none)
    else []
  else if angle = 45 then
    if 0 < num_lines then
      let diagonal_length := Real.sqrt (pattern_width ^ 2 + pattern_height ^ 2)
      let line_spacing := diagonal_length / (num_lines : ℝ)
      let center_x := pattern_x + pattern_width / 2
      let center_y := pattern_y + pattern_height / 2
      (List.range num_lines).filterMap (fun i : ℕ =>
        let offset := ((i : ℝ) - (num_lines : ℝ) / 2) * line_spacing
        let start_offset_x := offset / Real.sqrt 2
        let start_offset_y := -offset / Real.sqrt 2
        let line_length := min pattern_width pattern_height * 0.7
        let x1 := center_x + start_offset_x - line_length / (2 * Real.sqrt 2)
        let y1 := center_y + start_offset_y + line_length / (2 * Real.sqrt 2)
        let x2 := center_x + start_offset_x + line_length / (2 * Real.sqrt 2)
        let y2 := center_y + start_offset_y - line_length / (2 * Real.sqrt 2)
        if pattern_x ≤ x1 ∧ x2 ≤ pattern_x + pattern_width ∧
           pattern_y ≤ y2 ∧ y1 ≤ pattern_y + pattern_height then
          some (Prim.line x1 y1 x2 y2 line_width_mm)
        else none)
    else []
  else []

end

/-- One iteration of the 3×3 sub-cell loop of
`LinePairPatternGenerator._generate_multi_pattern_svg` at flat index
`k = row * 3 + col`: the targeted lines for `pattern_configs[k]` with line
width `spacing_um * 0.3`, then the three text labels and the sub-cell
border. -/
noncomputable def linePair_multi_cell (x_offset y_offset section_width section_height : ℝ)
    (k : ℕ) : List Prim :=
  let sub_width := section_width / 3
  let sub_height := section_height / 3
  let sub_x := x_offset + ((k % 3 : ℕ) : ℝ) * sub_width
  let sub_y := y_offset + ((k / 3 : ℕ) : ℝ) * sub_height
  match pattern_configs[k]? with
  | none => []
  | some cfg =>
      generate_targeted_lines_svg sub_x sub_y sub_width sub_height
        cfg.spacing_um (cfg.spacing_um * 0.3) cfg.orientation cfg.target_lines ++
      [Prim.text (sub_x + 1) (sub_y + sub_height - 0.5),
       Prim.text (sub_x + 1) (sub_y + sub_height - 0.5 - 1.2),
       Prim.text (sub_x + 1) (sub_y + sub_height - 0.5 - 2.0),
       Prim.rect sub_x sub_y sub_width sub_height false]

/-- `LinePairPatternGenerator._generate_multi_pattern_svg`: the nine sub-cells
in row-major order. -/
noncomputable def linePair_multi_svg (x_offset y_offset section_width section_height : ℝ) :
    List Prim :=
  (List.range 9).flatMap (linePair_multi_cell x_offset y_offset section_width section_height)

/-- `LinePairPatternGenerator.generate_svg_elements`: dispatch on the
`pattern_type` parameter, default `multi`. -/
noncomputable def linePair_generate_svg_elements (pattern_type? : Option LPMode)
    (line_spacing? line_width? : Option ℝ) (orientation? : Option LPOrientation)
    (x_offset y_offset section_width section_height : ℝ) :
    Except GenErr (List Prim × Bool) :=
  match pattern_type?.getD .multi with
  | .single =>
      linePair_single_svg line_spacing? line_width? orientation?
        x_offset y_offset section_width section_height
  | .multi =>
      .ok (linePair_multi_svg x_offset y_offset section_width section_height, false)

/-- The `marker_type` parameter of `AlignmentPatternGenerator`. -/
inductive MarkerType where
  | crosshair
  | fiducial
  | scale_bar
deriving DecidableEq

/-- `AlignmentPatternGenerator.generate_svg_elements`: a crosshair, fiducial,
or graduated scale bar centered in the section. -/
noncomputable def alignment_generate_svg_elements (marker_type? : Option MarkerType)
    (marker_size? : Option ℝ) (x_offset y_offset section_width section_height : ℝ) :
    List Prim :=
  let marker_size := marker_size?.getD 2.0
  let center_x := x_offset + section_width / 2
  let center_y := y_offset + section_height / 2
  match marker_type?.getD .crosshair with
  | .crosshair =>
      [Prim.line (center_x - marker_size / 2) center_y (center_x + marker_size / 2) center_y 0.1,
       Prim.line center_x (center_y - marker_size / 2) center_x (center_y + marker_size / 2) 0.1]
  | .fiducial =>
      [Prim.circle center_x center_y (marker_size / 2) false,
       Prim.circle center_x center_y (marker_size / 8) true]
  | .scale_bar =>
      let bar_length := marker_size
      let grad_spacing := bar_length / 10
      Prim.line (center_x - bar_length / 2) center_y (center_x + bar_length / 2) center_y 0.1 ::
      (List.range 11).map (fun i : ℕ =>
        let x := center_x - bar_length / 2 + (i : ℝ) * grad_spacing
        let grad_height := if i % 5 = 0 then (0.2 : ℝ) else 0.1
        Prim.line x (center_y - grad_height / 2) x (center_y + grad_height / 2) 0.05)

/-- One section of the `generate_svg` loop with the UI's default section
configuration (section 1: resolution, 2: distortion, 3: line pairs in multi
mode, 4: alignment markers), all with default parameters. -/
noncomputable def sectionPrims (idx : ℕ) (x_offset y_offset section_w section_h : ℝ) :
    Except GenErr (List Prim) :=
  match idx with
  | 0 => match resolution_generate_svg_elements none none x_offset y_offset section_w section_h with
         | .error e => .error e
         | .ok (l, _) => .ok l
  | 1 => match distortion_generate_svg_elements none x_offset y_offset section_w section_h with
         | .error e => .error e
         | .ok (l, _) => .ok l
  | 2 => match linePair_generate_svg_elements none none none none x_offset y_offset section_w section_h with
         | .error e => .error e
         | .ok (l, _) => .ok l
  | _ => .ok (alignment_generate_svg_elements none none x_offset y_offset section_w section_h)

/-- A section's contribution to the drawing: its pattern elements followed by
the two text labels and the dashed section outline. -/
noncomputable def sectionBlock (idx : ℕ) (pos : ℝ × ℝ) (section_w section_h : ℝ) :
    Except GenErr (List Prim) :=
  match sectionPrims idx pos.1 pos.2 section_w section_h with
  | .error e => .error e
  | .ok els =>
      .ok (els ++ [Prim.text (pos.1 + 2) (pos.2 + 3),
                   Prim.text (pos.1 + 2) (pos.2 + 6),
                   Prim.rect pos.1 pos.2 section_w section_h false])

/-- The generation phase of `CalibrationPlateDesigner.generate_svg` after the
dimension check: plate outline, then the four sections in order. -/
noncomputable def generatePlateContents (plate_w plate_h margin : ℝ) :
    Except GenErr (List Prim) := do
  let dims := calculate_section_dimensions plate_w plate_h margin
  let section_w := dims.2.1
  let section_h := dims.2.2
  let b0 ← sectionBlock 0 (dims.1.getD 0 (0, 0)) section_w section_h
  let b1 ← sectionBlock 1 (dims.1.getD 1 (0, 0)) section_w section_h
  let b2 ← sectionBlock 2 (dims.1.getD 2 (0, 0)) section_w section_h
  let b3 ← sectionBlock 3 (dims.1.getD 3 (0, 0)) section_w section_h
  pure (Prim.rect 0 0 plate_w plate_h false :: (b0 ++ b1 ++ b2 ++ b3))

/-- `CalibrationPlateDesigner.generate_svg` (geometry part): the dimension
validation `plate_w <= 0 or plate_h <= 0` runs before the layout and before
any pattern generation; the margin is read but never validated. -/
noncomputable def generate_svg_model (plate_w plate_h margin : ℝ) :
    Except DesignError (List Prim) :=
  if plate_w ≤ 0 ∨ plate_h ≤ 0 then .error .invalidDimension
  else
    match generatePlateContents plate_w plate_h margin with
    | .error e => .error (.generationError e)
    | .ok l => .ok l

/-- Interior-disjointness of two axis-aligned rectangles given by their
origins, both of size `sw × sh`. -/
def originsDisjoint (a b : ℝ × ℝ) (sw sh : ℝ) : Prop :=
  a.1 + sw ≤ b.1 ∨ b.1 + sw ≤ a.1 ∨ a.2 + sh ≤ b.2 ∨ b.2 + sh ≤ a.2

/-- Interior-disjointness of two rect primitives (vacuous otherwise). -/
def rectsSeparated : Prim → Prim → Prop
  | .rect x1 y1 w1 h1 _, .rect x2 y2 w2 h2 _ =>
      x1 + w1 ≤ x2 ∨ x2 + w2 ≤ x1 ∨ y1 + h1 ≤ y2 ∨ y2 + h2 ≤ y1
  | _, _ => True

/-- Two rect primitives share a full edge (orthogonal adjacency). -/
def rectsEdgeAdjacent : Prim → Prim → Prop
  | .rect x1 y1 w1 h1 _, .rect x2 y2 w2 h2 _ =>
      (y1 = y2 ∧ h1 = h2 ∧ (x1 + w1 = x2 ∨ x2 + w2 = x1)) ∨
      (x1 = x2 ∧ w1 = w2 ∧ (y1 + h1 = y2 ∨ y2 + h2 = y1))
  | _, _ => False

/-- All of a primitive's defining coordinates lie inside the axis-aligned
rectangle with origin `(x0, y0)` and size `w × h`. -/
def inSection (x0 y0 w h : ℝ) : Prim → Prop
  | .circle cx cy _ _ => x0 ≤ cx ∧ cx ≤ x0 + w ∧ y0 ≤ cy ∧ cy ≤ y0 + h
  | .rect x y rw rh _ => x0 ≤ x ∧ x + rw ≤ x0 + w ∧ y0 ≤ y ∧ y + rh ≤ y0 + h
  | .line x1 y1 x2 y2 _ =>
      x0 ≤ x1 ∧ x1 ≤ x0 + w ∧ y0 ≤ y1 ∧ y1 ≤ y0 + h ∧
      x0 ≤ x2 ∧ x2 ≤ x0 + w ∧ y0 ≤ y2 ∧ y2 ≤ y0 + h
  | .polyline pts _ => ∀ q ∈ pts, x0 ≤ q.1 ∧ q.1 ≤ x0 + w ∧ y0 ≤ q.2 ∧ q.2 ≤ y0 + h
  | .text x y => x0 ≤ x ∧ x ≤ x0 + w ∧ y0 ≤ y ∧ y ≤ y0 + h

/-- Whether a primitive is a filled rect (the shape the line generators draw). -/
def Prim.isFilledRect : Prim → Bool
  | .rect _ _ _ _ true => true
  | _ => false

/-- The x-coordinate of a rect primitive's center (0 for other shapes). -/
noncomputable def Prim.rectCenterX : Prim → ℝ
  | .rect x _ w _ _ => x + w / 2
  | _ => 0

/-- The height of a rect primitive (0 for other shapes). -/
noncomputable def Prim.rectH : Prim → ℝ
  | .rect _ _ _ h _ => h
  | _ => 0

/-- The width of a rect primitive (0 for other shapes). -/
noncomputable def Prim.rectW : Prim → ℝ
  | .rect _ _ w _ _ => w
  | _ => 0

/-- For a nonnegative float, Python truncation is the floor. -/
theorem pyInt_eq_floor (x : ℝ) (hx : 0 ≤ x) : pyInt x = ⌊x⌋ := by
  simp [pyInt, not_lt.mpr hx]

/-- Evaluating `int(math.sqrt x)` through the integer square root bracket. -/
theorem pyInt_sqrt_eval (x : ℝ) (k : ℕ) (h1 : (k : ℝ) ^ 2 ≤ x)
    (h2 : x < ((k : ℝ) + 1) ^ 2) : pyInt (Real.sqrt x) = k := by
  have h0 : (0 : ℝ) ≤ x := le_trans (by positivity) h1
  rw [pyInt_eq_floor _ (Real.sqrt_nonneg x), Int.floor_eq_iff]
  constructor
  · push_cast
    rw [show ((k : ℝ)) = Real.sqrt ((k : ℝ) ^ 2) by rw [Real.sqrt_sq (by positivity)]]
    exact Real.sqrt_le_sqrt h1
  · push_cast
    have h3 := Real.sqrt_lt_sqrt h0 h2
    rwa [Real.sqrt_sq (by positivity)] at h3

/-- The length of a row-major grid built with `flatMap` and `map`. -/
theorem length_range_flatMap_map {α : Type} (n m : ℕ) (f : ℕ → ℕ → α) :
    ((List.range n).flatMap (fun r => (List.range m).map (f r))).length = n * m := by
  induction n with
  | zero => simp
  | succ k ih => rw [List.range_succ]; simp [ih, Nat.succ_mul]

/-- `range(0, n, 2)` has `(n + 1) // 2` entries. -/
theorem length_pyRangeStep2 (n : ℕ) : (pyRangeStep2 n).length = (n + 1) / 2 := by
  induction n with
  | zero => rfl
  | succ k ih =>
      have hsplit : pyRangeStep2 (k + 1) = pyRangeStep2 k ++ (if k % 2 = 0 then [k] else []) := by
        rw [pyRangeStep2, List.range_succ, List.filter_append]
        congr 1
        by_cases h : k % 2 = 0
        · have hb : (k % 2 == 0) = true := by simpa using h
          simp [List.filter, hb, h]
        · have hb : (k % 2 == 0) = false := by simpa using h
          simp [List.filter, hb, h]
      rw [hsplit, List.length_append, ih]
      by_cases h : k % 2 = 0 <;> simp [h] <;> omega

/-- A `filterMap` whose condition holds on every element is a `map`. -/
theorem filterMap_ite_eq_map {α β : Type} (l : List α) (p : α → Prop) [DecidablePred p]
    (g : α → β) (h : ∀ a ∈ l, p a) :
    l.filterMap (fun a => if p a then some (g a) else none) = l.map g := by
  induction l with
  | nil => rfl
  | cons a t ih =>
      rw [List.filterMap_cons, if_pos (h a (List.mem_cons_self a t)), List.map_cons,
        ih (fun x hx => h x (List.mem_cons_of_mem a hx))]

/-- `max(1, int(x))` is at least one. -/
theorem pyMax1Int_pos (x : ℝ) : 1 ≤ pyMax1Int x := by
  unfold pyMax1Int
  omega

/-- The length of a guarded `filterMap` is the length of the matching filter. -/
theorem length_filterMap_ite {α β : Type} (l : List α) (p : α → Prop) [DecidablePred p]
    (g : α → β) :
    (l.filterMap (fun a => if p a then some (g a) else none)).length =
      (l.filter (fun a => decide (p a))).length := by
  induction l with
  | nil => rfl
  | cons a t ih =>
      by_cases h : p a <;>
        simp [List.filterMap_cons, List.filter_cons, h, ih]

/-- The length of a row-major guarded grid rewritten as a pure `ℕ` count. -/
theorem grid_filterMap_length {β : Type} (n m : ℕ) (p : ℕ → ℕ → Prop)
    [∀ r c, Decidable (p r c)] (g : ℕ → ℕ → β) :
    ((List.range n).flatMap (fun r => (List.range m).filterMap (fun c =>
        if p r c then some (g r c) else none))).length =
      ((List.range n).flatMap (fun r => (List.range m).filter (fun c =>
        decide (p r c)))).length := by
  induction n with
  | zero => rfl
  | succ k ih =>
      rw [List.range_succ]
      simp only [List.flatMap_append, List.length_append, ih]
      congr 1
      simp only [List.flatMap_cons, List.flatMap_nil, List.append_nil]
      exact length_filterMap_ite _ _ _

/-- Counting the horizontal lines of the targeted-lines loop when every line
passes the fit check. -/
theorem targeted_h_count (px py pw ph lsp lw : ℝ) (n : ℕ)
    (hfit : ∀ i : ℕ, i < n → py + (i : ℝ) * lsp + lw ≤ py + ph) :
    ((List.range n).filterMap (fun i : ℕ =>
        if py + (i : ℝ) * lsp + lw ≤ py + ph then
          some (Prim.rect px (py + (i : ℝ) * lsp) pw lw true)
        else none)).countP Prim.isFilledRect = n := by
  rw [filterMap_ite_eq_map (List.range n) (fun i : ℕ => py + (i : ℝ) * lsp + lw ≤ py + ph)
    (fun i : ℕ => Prim.rect px (py + (i : ℝ) * lsp) pw lw true)
    (fun a ha => hfit a (List.mem_range.mp ha))]
  rw [List.countP_map]
  have hcomp : (Prim.isFilledRect ∘ fun i : ℕ => Prim.rect px (py + (i : ℝ) * lsp) pw lw true) =
      fun _ => true := by
    funext i; rfl
  rw [hcomp, List.countP_true, List.length_range]

/-- Counting the vertical lines of the targeted-lines loop when every line
passes the fit check. -/
theorem targeted_v_count (px py pw ph lsp lw : ℝ) (n : ℕ)
    (hfit : ∀ i : ℕ, i < n → px + (i : ℝ) * lsp + lw ≤ px + pw) :
    ((List.range n).filterMap (fun i : ℕ =>
        if px + (i : ℝ) * lsp + lw ≤ px + pw then
          some (Prim.rect (px + (i : ℝ) * lsp) py lw ph true)
        else none)).countP Prim.isFilledRect = n := by
  rw [filterMap_ite_eq_map (List.range n) (fun i : ℕ => px + (i : ℝ) * lsp + lw ≤ px + pw)
    (fun i : ℕ => Prim.rect (px + (i : ℝ) * lsp) py lw ph true)
    (fun a ha => hfit a (List.mem_range.mp ha))]
  rw [List.countP_map]
  have hcomp : (Prim.isFilledRect ∘ fun i : ℕ => Prim.rect (px + (i : ℝ) * lsp) py lw ph true) =
      fun _ => true := by
    funext i; rfl
  rw [hcomp, List.countP_true, List.length_range]

/-- The filled-line count of an orientation-0° targeted sub-pattern whose
lines all fit: `min target_lines 25`. -/
theorem targeted_svg_angle0_count (x0 y0 w h s lwum : ℝ) (t : ℕ)
    (h0 : 0 < min t 25)
    (hph : 0 < h - 2 * (min w h * 0.05))
    (hfit : ∀ i : ℕ, i < min t 25 →
       (y0 + min w h * 0.05) + (i : ℝ) * ((h - 2 * (min w h * 0.05)) / ((min t 25 : ℕ) : ℝ)) +
         lwum / 1000 ≤ (y0 + min w h * 0.05) + (h - 2 * (min w h * 0.05))) :
    ((generate_targeted_lines_svg x0 y0 w h s lwum 0 t).countP Prim.isFilledRect) = min t 25 := by
  simp only [generate_targeted_lines_svg, if_true]
  rw [if_pos ⟨h0, hph⟩]
  exact targeted_h_count _ _ _ _ _ _ _ hfit

/-- The filled-line count of an orientation-90° targeted sub-pattern whose
lines all fit: `min target_lines 25`. -/
theorem targeted_svg_angle90_count (x0 y0 w h s lwum : ℝ) (t : ℕ)
    (h0 : 0 < min t 25)
    (hpw : 0 < w - 2 * (min w h * 0.05))
    (hfit : ∀ i : ℕ, i < min t 25 →
       (x0 + min w h * 0.05) + (i : ℝ) * ((w - 2 * (min w h * 0.05)) / ((min t 25 : ℕ) : ℝ)) +
         lwum / 1000 ≤ (x0 + min w h * 0.05) + (w - 2 * (min w h * 0.05))) :
    ((generate_targeted_lines_svg x0 y0 w h s lwum 90 t).countP Prim.isFilledRect) = min t 25 := by
  simp only [generate_targeted_lines_svg]
  rw [if_neg (by decide : ¬ ((90 : ℕ) = 0))]
  simp only [if_true]
  rw [if_pos ⟨h0, hpw⟩]
  exact targeted_v_count _ _ _ _ _ _ _ hfit

/-- Every element of an orientation-0° targeted sub-pattern is a full-width
filled rect of thickness `line_width_um / 1000`. -/
theorem targeted_svg_angle0_shape (x0 y0 w h s lwum : ℝ) (t : ℕ) (p : Prim)
    (hp : p ∈ generate_targeted_lines_svg x0 y0 w h s lwum 0 t) :
    ∃ yy : ℝ, p = Prim.rect (x0 + min w h * 0.05) yy (w - 2 * (min w h * 0.05))
      (lwum / 1000) true := by
  simp only [generate_targeted_lines_svg, if_true] at hp
  split at hp
  · simp only [List.mem_filterMap, List.mem_range] at hp
    obtain ⟨i, hi, hif⟩ := hp
    split at hif
    · exact ⟨_, (Option.some_inj.mp hif).symm⟩
    · cases hif
  · cases hp

/-- Every element of an orientation-90° targeted sub-pattern is a full-height
filled rect of thickness `line_width_um / 1000`. -/
theorem targeted_svg_angle90_shape (x0 y0 w h s lwum : ℝ) (t : ℕ) (p : Prim)
    (hp : p ∈ generate_targeted_lines_svg x0 y0 w h s lwum 90 t) :
    ∃ xx : ℝ, p = Prim.rect xx (y0 + min w h * 0.05) (lwum / 1000)
      (h - 2 * (min w h * 0.05)) true := by
  simp only [generate_targeted_lines_svg] at hp
  rw [if_neg (by decide : ¬ ((90 : ℕ) = 0))] at hp
  simp only [if_true] at hp
  split at hp
  · simp only [List.mem_filterMap, List.mem_range] at hp
    obtain ⟨i, hi, hif⟩ := hp
    split at hif
    · exact ⟨_, (Option.some_inj.mp hif).symm⟩
    · cases hif
  · cases hp

/-- Whenever the density clamp returns without raising, the product of the
clamped cols and rows is at most its cap. -/
theorem densityGuardClamp_bound (cap : ℕ) (w h : ℝ) (cols rows mc mr : ℕ)
    (hok : densityGuardClamp cap w h cols rows = .ok (mc, mr)) :
    mc * mr ≤ cap := by
  simp only [densityGuardClamp] at hok
  split at hok
  · exact absurd hok (by simp)
  · split at hok
    · exact absurd hok (by simp)
    · split at hok
      · exact absurd hok (by simp)
      · rename_i hh hneg hmc0
        rw [Except.ok.injEq, Prod.mk.injEq] at hok
        obtain ⟨rfl, rfl⟩ := hok
        set mc0 := (pyInt (Real.sqrt ((cap : ℝ) * w / h))).toNat with hmc0def
        set mr0 := (pyInt ((cap : ℝ) / (mc0 : ℝ))).toNat with hmr0def
        have hmc0pos : 1 ≤ mc0 := Nat.one_le_iff_ne_zero.mpr hmc0
        have hq0 : (0 : ℝ) ≤ (cap : ℝ) / (mc0 : ℝ) := by positivity
        have hfloor : pyInt ((cap : ℝ) / (mc0 : ℝ)) = ⌊(cap : ℝ) / (mc0 : ℝ)⌋ :=
          pyInt_eq_floor _ hq0
        have hmr0le : (mr0 : ℝ) ≤ (cap : ℝ) / (mc0 : ℝ) := by
          have htn : ((⌊(cap : ℝ) / (mc0 : ℝ)⌋.toNat : ℕ) : ℤ) = ⌊(cap : ℝ) / (mc0 : ℝ)⌋ :=
            Int.toNat_of_nonneg (Int.floor_nonneg.mpr hq0)
          rw [hmr0def, hfloor]
          rw [show ((⌊(cap : ℝ) / (mc0 : ℝ)⌋.toNat : ℕ) : ℝ) =
              ((⌊(cap : ℝ) / (mc0 : ℝ)⌋ : ℤ) : ℝ) by exact_mod_cast htn]
          exact Int.floor_le ((cap : ℝ) / (mc0 : ℝ))
        have hmain : (mc0 : ℝ) * (mr0 : ℝ) ≤ (cap : ℝ) := by
          have hmcpos : (0 : ℝ) < (mc0 : ℝ) := by exact_mod_cast hmc0pos
          calc (mc0 : ℝ) * (mr0 : ℝ) ≤ (mc0 : ℝ) * ((cap : ℝ) / (mc0 : ℝ)) :=
                mul_le_mul_of_nonneg_left hmr0le (le_of_lt hmcpos)
            _ = (cap : ℝ) := by field_simp
        have hmm : mc0 * mr0 ≤ cap := by exact_mod_cast hmain
        calc (min cols mc0) * (min rows mr0) ≤ mc0 * mr0 :=
              Nat.mul_le_mul (Nat.min_le_right _ _) (Nat.min_le_right _ _)
          _ ≤ cap := hmm

/-- Evaluation: on a 20 × 20 section the resolution generator requests an
80 × 80 dot grid and the density guard does not trigger. -/
theorem resolutionColsRows_at_20 : resolutionColsRows 20 20 = .ok (80, 80, false) := by
  unfold resolutionColsRows pyMax1Int pyInt
  norm_num [MAX_ELEMENTS_PER_PATTERN]
  rfl

/-- Evaluation: on a 30 × 30 section the resolution generator requests
120 × 120 = 14400 dots and the guard clamps to 100 × 100 with a warning. -/
theorem resolutionColsRows_at_30 : resolutionColsRows 30 30 = .ok (100, 100, true) := by
  have hc : pyMax1Int ((30 : ℝ) / 0.25) = 120 := by
    unfold pyMax1Int pyInt; norm_num; rfl
  have hsq : pyInt (Real.sqrt ((MAX_ELEMENTS_PER_PATTERN : ℝ) * 30 / 30)) = 100 := by
    rw [show ((MAX_ELEMENTS_PER_PATTERN : ℕ) : ℝ) * 30 / 30 = 10000 by
      norm_num [MAX_ELEMENTS_PER_PATTERN]]
    exact pyInt_sqrt_eval 10000 100 (by norm_num) (by norm_num)
  have hguard : densityGuardClamp MAX_ELEMENTS_PER_PATTERN 30 30 120 120 = .ok (100, 100) := by
    simp only [densityGuardClamp, hsq]
    rw [show Int.toNat 100 = 100 from rfl]
    norm_num [pyInt, MAX_ELEMENTS_PER_PATTERN]
    rfl
  unfold resolutionColsRows
  simp only [hc]
  rw [if_pos (by norm_num [MAX_ELEMENTS_PER_PATTERN]), hguard]

/-- Evaluation: on a 0.2 mm × 3000 mm section the guard triggers with
`max_cols = int(sqrt(10000 * 0.2 / 3000)) = 0` and the resolution generator
raises `ZeroDivisionError` at `int(10000 / max_cols)`. -/
theorem resolutionColsRows_crash : resolutionColsRows 0.2 3000 = .error .zeroDivision := by
  have hc : pyMax1Int ((0.2 : ℝ) / 0.25) = 1 := by
    unfold pyMax1Int pyInt; norm_num
  have hr : pyMax1Int ((3000 : ℝ) / 0.25) = 12000 := by
    unfold pyMax1Int pyInt; norm_num; rfl
  have hsq : pyInt (Real.sqrt ((MAX_ELEMENTS_PER_PATTERN : ℝ) * 0.2 / 3000)) = 0 := by
    rw [show ((MAX_ELEMENTS_PER_PATTERN : ℕ) : ℝ) * 0.2 / 3000 = 2 / 3 by
      norm_num [MAX_ELEMENTS_PER_PATTERN]]
    exact pyInt_sqrt_eval (2 / 3) 0 (by norm_num) (by norm_num)
  have hguard : densityGuardClamp MAX_ELEMENTS_PER_PATTERN 0.2 3000 1 12000 =
      .error .zeroDivision := by
    simp only [densityGuardClamp, hsq]
    norm_num [MAX_ELEMENTS_PER_PATTERN]
  simp only [resolutionColsRows, hc, hr]
  rw [if_pos (by norm_num [MAX_ELEMENTS_PER_PATTERN]), hguard]

/-- Evaluation: a 500 × 500 checkerboard request (grid 0.02 mm on a 10 × 10
section) is clamped to 141 × 141 cells with a warning. -/
theorem distortionColsRows_clamped :
    distortionColsRows (some 0.02) 10 10 = .ok (141, 141, true) := by
  have hc : pyMax1Int ((10 : ℝ) / 0.02) = 500 := by
    unfold pyMax1Int pyInt; norm_num; rfl
  have hsq : pyInt (Real.sqrt (((MAX_ELEMENTS_PER_PATTERN * 2 : ℕ) : ℝ) * 10 / 10)) = 141 := by
    rw [show ((MAX_ELEMENTS_PER_PATTERN * 2 : ℕ) : ℝ) * 10 / 10 = 20000 by
      norm_num [MAX_ELEMENTS_PER_PATTERN]]
    exact pyInt_sqrt_eval 20000 141 (by norm_num) (by norm_num)
  have hguard : densityGuardClamp (MAX_ELEMENTS_PER_PATTERN * 2) 10 10 500 500 =
      .ok (141, 141) := by
    simp only [densityGuardClamp, hsq]
    rw [show Int.toNat 141 = 141 from rfl]
    norm_num [pyInt, MAX_ELEMENTS_PER_PATTERN]
    rfl
  simp only [distortionColsRows, Option.getD, hc]
  rw [if_neg (by norm_num : ¬ (0.02 : ℝ) = 0)]
  rw [if_pos (by norm_num [MAX_ELEMENTS_PER_PATTERN]), hguard]

/-- Evaluation: grid size 1 mm on a 10 × 10 section gives a 10 × 10 grid,
no warning. -/
theorem distortionColsRows_at_10 :
    distortionColsRows (some 1.0) 10 10 = .ok (10, 10, false) := by
  have hc : pyMax1Int ((10 : ℝ) / 1.0) = 10 := by
    unfold pyMax1Int pyInt; norm_num; rfl
  simp only [distortionColsRows, Option.getD, hc]
  rw [if_neg (by norm_num : ¬ (1.0 : ℝ) = 0)]
  rw [if_neg (by norm_num [MAX_ELEMENTS_PER_PATTERN])]

/-- Evaluation of the default single-frequency vertical line-pair pattern on a
2 mm-wide section: 400 grid positions, the 200 even ones drawn as rects of
width 0.001 mm anchored at `x = i * (2/399) - 0.0005`. -/
theorem linePair_single_at_2mm :
    linePair_single_svg none none none 0 0 2 2 =
      .ok ((pyRangeStep2 400).map (fun i : ℕ =>
        Prim.rect ((i : ℝ) * (2 / 399) - 0.0005) 0 0.001 2 true), false) := by
  have hn : pyMax1Int ((2 : ℝ) / (5.0 / 1000)) = 400 := by
    unfold pyMax1Int pyInt; norm_num; rfl
  simp only [linePair_single_svg, Option.getD, hn]
  rw [if_neg (by norm_num : ¬ (5.0 / 1000 : ℝ) = 0)]
  norm_num [MAX_ELEMENTS_PER_PATTERN]

/-- Evaluation of the 80 × 80 dot grid on the 20 × 20 section at the origin:
the exact-fit spacing is `20 / 79` in both directions, anchored at 0. -/
theorem resolutionDotGrid_at_20 :
    resolutionDotGrid 0 0 20 20 80 80 =
      (List.range 80).flatMap (fun row : ℕ => (List.range 80).map (fun col : ℕ =>
        Prim.circle ((col : ℝ) * (20 / 79)) ((row : ℝ) * (20 / 79)) 0.0625 true)) := by
  simp only [resolutionDotGrid]
  norm_num

/-- Evaluation of the 10 × 10 checkerboard cells on the 10 × 10 section at
the origin: exact-fit 1 × 1 cells at integer coordinates. -/
theorem distortionCells_at_10 : distortionCells 0 0 10 10 10 10 =
    (List.range 10).flatMap (fun row : ℕ => (List.range 10).filterMap (fun col : ℕ =>
      if (row + col) % 2 = 0 then some (Prim.rect ((col : ℝ)) ((row : ℝ)) 1 1 true)
      else none)) := by
  simp only [distortionCells]
  norm_num

/-- Every primitive of the evaluated checkerboard is a unit filled cell at an
even-parity position. -/
theorem distortionCells_at_10_mem (p : Prim) (hp : p ∈ distortionCells 0 0 10 10 10 10) :
    ∃ r c : ℕ, r < 10 ∧ c < 10 ∧ (r + c) % 2 = 0 ∧
      p = Prim.rect ((c : ℝ)) ((r : ℝ)) 1 1 true := by
  rw [distortionCells_at_10] at hp
  simp only [List.mem_flatMap, List.mem_range, List.mem_filterMap] at hp
  obtain ⟨r, hr, c, hc, hif⟩ := hp
  split at hif
  · rename_i hpar
    exact ⟨r, c, hr, hc, hpar, (Option.some_inj.mp hif).symm⟩
  · cases hif

/-- The drawn-line list of the single-frequency line-pair generator never
exceeds the element cap: the clamp bounds `num_lines` by `2 * cap`, and only
every second line is drawn. -/
theorem linePair_single_drawn_le (ls lw : Option ℝ) (ori : Option LPOrientation)
    (x0 y0 sw sh : ℝ) (lst : List Prim) (b2 : Bool)
    (hok : linePair_single_svg ls lw ori x0 y0 sw sh = .ok (lst, b2)) :
    lst.length ≤ MAX_ELEMENTS_PER_PATTERN := by
  simp only [linePair_single_svg] at hok
  split at hok <;>
  · split at hok
    · exact absurd hok (by simp)
    · rw [Except.ok.injEq, Prod.mk.injEq] at hok
      obtain ⟨hlst, -⟩ := hok
      rw [← hlst, List.length_map, length_pyRangeStep2]
      simp only [MAX_ELEMENTS_PER_PATTERN] at *
      split <;> omega

/-- C1: for positive plate dimensions with 2·margin < min(width, height),
`calculate_section_dimensions` returns exactly the four section origins
[top-left, top-right, bottom-left, bottom-right] with the common size
((width−2·margin)/2, (height−2·margin)/2), the four sections are pairwise
interior-disjoint and arranged as a 2×2 grid at x ∈ {margin, margin + sw},
y ∈ {margin, margin + sh}, and 4·(sw·sh) equals
(width−2·margin)·(height−2·margin) exactly, hence within any floating-point
epsilon. -/
theorem C1_section_layout (w h m : ℝ) (hw : 0 < w) (hh : 0 < h)
    (hm : 2 * m < min w h) :
    calculate_section_dimensions w h m =
      ([(m, m), (m + (w - 2 * m) / 2, m), (m, m + (h - 2 * m) / 2),
        (m + (w - 2 * m) / 2, m + (h - 2 * m) / 2)],
       (w - 2 * m) / 2, (h - 2 * m) / 2) ∧
    0 < (w - 2 * m) / 2 ∧ 0 < (h - 2 * m) / 2 ∧
    ((calculate_section_dimensions w h m).1).Pairwise
      (fun a b => originsDisjoint a b ((w - 2 * m) / 2) ((h - 2 * m) / 2)) ∧
    4 * ((w - 2 * m) / 2 * ((h - 2 * m) / 2)) = (w - 2 * m) * (h - 2 * m) := by
  have hmw : 2 * m < w := lt_of_lt_of_le hm (min_le_left _ _)
  have hmh : 2 * m < h := lt_of_lt_of_le hm (min_le_right _ _)
  refine ⟨rfl, by linarith, by linarith, ?_, by ring⟩
  simp only [calculate_section_dimensions, List.pairwise_cons, List.mem_cons,
    List.mem_singleton, List.not_mem_nil, List.Pairwise.nil, originsDisjoint]
  norm_num

/-- C1 witness: the layout theorem at the concrete plate 101.6 × 101.6 mm with
margin 10 mm (the UI defaults). -/
theorem C1_section_layout_witness :
    (0 : ℝ) < 101.6 ∧ (0 : ℝ) < 101.6 ∧ 2 * (10 : ℝ) < min 101.6 101.6 ∧
    (calculate_section_dimensions 101.6 101.6 10 =
      ([(10, 10), (10 + (101.6 - 2 * 10) / 2, 10), (10, 10 + (101.6 - 2 * 10) / 2),
        (10 + (101.6 - 2 * 10) / 2, 10 + (101.6 - 2 * 10) / 2)],
       (101.6 - 2 * 10) / 2, (101.6 - 2 * 10) / 2) ∧
     0 < (101.6 - 2 * 10 : ℝ) / 2 ∧ 0 < (101.6 - 2 * 10 : ℝ) / 2 ∧
     ((calculate_section_dimensions 101.6 101.6 10).1).Pairwise
       (fun a b => originsDisjoint a b ((101.6 - 2 * 10) / 2) ((101.6 - 2 * 10) / 2)) ∧
     4 * ((101.6 - 2 * 10 : ℝ) / 2 * ((101.6 - 2 * 10) / 2)) =
       (101.6 - 2 * 10) * (101.6 - 2 * 10)) :=
  ⟨by norm_num, by norm_num, by norm_num,
   C1_section_layout 101.6 101.6 10 (by norm_num) (by norm_num) (by norm_num)⟩

/-- C2 counterexample: a 500 × 500 grid request (distortion checkerboard with
grid 0.02 mm on a 10 mm × 10 mm section) is clamped to 141 × 141 with a
warning, so `cols · rows = 19881 > 10000`; moreover the claim's formula
`max_cols = floor(sqrt(cap · w / h))` with the cap 10000 would give 100, not
the 141 the code computes (the checkerboard path uses `2 · cap = 20000`). -/
theorem C2_density_guard_cex :
    distortionColsRows (some 0.02) 10 10 = .ok (141, 141, true) ∧
    MAX_ELEMENTS_PER_PATTERN < 141 * 141 ∧
    (pyInt (Real.sqrt ((MAX_ELEMENTS_PER_PATTERN : ℝ) * 10 / 10))).toNat = 100 ∧
    (141 : ℕ) ≠ 100 := by
  refine ⟨distortionColsRows_clamped, by norm_num [MAX_ELEMENTS_PER_PATTERN], ?_, by norm_num⟩
  rw [show ((MAX_ELEMENTS_PER_PATTERN : ℕ) : ℝ) * 10 / 10 = 10000 by
    norm_num [MAX_ELEMENTS_PER_PATTERN]]
  rw [pyInt_sqrt_eval 10000 100 (by norm_num) (by norm_num)]
  rfl

/-- C2 amended: when the dot-array request exceeds the cap the warning is
recorded and the clamped `cols · rows` stays ≤ 10000 (the claim's formula,
with cap 10000, holds for dot arrays); the line charts always draw at most
10000 lines; the checkerboard clamp instead uses `2 · cap` in the same
formula, so its `cols · rows` may exceed 10000 while the element count
(filled cells, `cols · rows / 2 = 9940` for the 500 × 500 request on
10 mm × 10 mm) stays ≤ 10000 with a warning recorded. -/
theorem C2_density_guard_amended (w h : ℝ) (c r : ℕ) (b : Bool)
    (hreq : MAX_ELEMENTS_PER_PATTERN < pyMax1Int (w / 0.25) * pyMax1Int (h / 0.25))
    (hok : resolutionColsRows w h = .ok (c, r, b)) :
    (b = true ∧ c * r ≤ MAX_ELEMENTS_PER_PATTERN) ∧
    (∀ (ls lw : Option ℝ) (ori : Option LPOrientation) (x0 y0 sw sh : ℝ)
       (lst : List Prim) (b2 : Bool),
       linePair_single_svg ls lw ori x0 y0 sw sh = .ok (lst, b2) →
       lst.length ≤ MAX_ELEMENTS_PER_PATTERN) ∧
    distortionColsRows (some 0.02) 10 10 = .ok (141, 141, true) ∧
    141 * 141 / 2 ≤ MAX_ELEMENTS_PER_PATTERN := by
  refine ⟨?_, fun ls lw ori x0 y0 sw sh lst b2 hok2 =>
      linePair_single_drawn_le ls lw ori x0 y0 sw sh lst b2 hok2,
    distortionColsRows_clamped, by norm_num [MAX_ELEMENTS_PER_PATTERN]⟩
  simp only [resolutionColsRows] at hok
  rw [if_pos hreq] at hok
  cases hguard : densityGuardClamp MAX_ELEMENTS_PER_PATTERN w h
      (pyMax1Int (w / 0.25)) (pyMax1Int (h / 0.25)) with
  | error e =>
      rw [hguard] at hok
      exact absurd hok (by simp)
  | ok cr =>
      rw [hguard] at hok
      obtain ⟨mc, mr⟩ := cr
      rw [Except.ok.injEq, Prod.mk.injEq, Prod.mk.injEq] at hok
      obtain ⟨rfl, rfl, rfl⟩ := hok
      exact ⟨rfl, densityGuardClamp_bound _ _ _ _ _ _ _ hguard⟩

/-- C2 witness: the density-guard theorem at a 30 mm × 30 mm section, where the
120 × 120 = 14400-dot request is clamped to 100 × 100 = 10000 with a warning. -/
theorem C2_density_guard_amended_witness :
    MAX_ELEMENTS_PER_PATTERN < pyMax1Int ((30 : ℝ) / 0.25) * pyMax1Int ((30 : ℝ) / 0.25) ∧
    ((true = true ∧ 100 * 100 ≤ MAX_ELEMENTS_PER_PATTERN) ∧
     (∀ (ls lw : Option ℝ) (ori : Option LPOrientation) (x0 y0 sw sh : ℝ)
        (lst : List Prim) (b2 : Bool),
        linePair_single_svg ls lw ori x0 y0 sw sh = .ok (lst, b2) →
        lst.length ≤ MAX_ELEMENTS_PER_PATTERN) ∧
     distortionColsRows (some 0.02) 10 10 = .ok (141, 141, true) ∧
     141 * 141 / 2 ≤ MAX_ELEMENTS_PER_PATTERN) :=
  ⟨by rw [show pyMax1Int ((30 : ℝ) / 0.25) = 120 by unfold pyMax1Int pyInt; norm_num; rfl]
      norm_num [MAX_ELEMENTS_PER_PATTERN],
   C2_density_guard_amended 30 30 100 100 true
     (by rw [show pyMax1Int ((30 : ℝ) / 0.25) = 120 by unfold pyMax1Int pyInt; norm_num; rfl]
         norm_num [MAX_ELEMENTS_PER_PATTERN])
     resolutionColsRows_at_30⟩

/-- C3: the resolution generator is not total on positive sections: on a
0.2 mm × 3000 mm section the density guard computes
`max_cols = int(sqrt(10000 · 0.2 / 3000)) = 0` and then
`int(10000 / max_cols)` raises `ZeroDivisionError`. -/
theorem C3_resolution_zero_division :
    resolution_generate_svg_elements none none 0 0 0.2 3000 = .error .zeroDivision ∧
    (0 : ℝ) < 0.2 ∧ (0 : ℝ) < 3000 := by
  refine ⟨?_, by norm_num, by norm_num⟩
  simp only [resolution_generate_svg_elements, resolutionColsRows_crash]

/-- C4 counterexample: the first drawn line of the default single-frequency
vertical line-pair pattern on the section [0,2] × [0,2] is a rect inserted at
x = −0.0005, strictly left of the owning section: not every primitive
coordinate lies within the section. -/
theorem C4_bounds_cex :
    ∃ lst b, linePair_single_svg none none none 0 0 2 2 = .ok (lst, b) ∧
      ∃ p ∈ lst, ¬ inSection 0 0 2 2 p := by
  refine ⟨_, _, linePair_single_at_2mm, ?_⟩
  refine ⟨Prim.rect (((0 : ℕ) : ℝ) * (2 / 399) - 0.0005) 0 0.001 2 true,
    List.mem_map_of_mem _ (show (0 : ℕ) ∈ pyRangeStep2 400 by decide), ?_⟩
  simp only [inSection]
  intro hcon
  have h1 := hcon.1
  norm_num at h1

/-- C4 amended: every rect of the single-frequency vertical line-pair pattern
lies within the owning section inflated by half a line width on each
horizontal side (the rects are centered on grid positions inside [x0, x0+w],
so they can protrude by exactly width/2 at the two edges and no further;
vertically they span the section exactly). -/
theorem C4_bounds_amended (ls lw : Option ℝ) (ori : Option LPOrientation)
    (x0 y0 w h : ℝ) (lst : List Prim) (b : Bool)
    (hori : ori.getD .vertical = .vertical)
    (hw : 0 < w) (hlw : 0 ≤ lw.getD 1.0)
    (hok : linePair_single_svg ls lw ori x0 y0 w h = .ok (lst, b)) :
    ∀ p ∈ lst, inSection (x0 - lw.getD 1.0 / 1000 / 2) y0 (w + lw.getD 1.0 / 1000) h p := by
  simp only [linePair_single_svg, hori] at hok
  set lwv := lw.getD 1.0 with hlwv
  set wm := lwv / 1000 with hwm
  have hwm0 : 0 ≤ wm := by positivity
  split at hok
  · exact absurd hok (by simp)
  · set n0 := pyMax1Int (w / (ls.getD 5.0 / 1000)) with hn0
    set warned := (n0 + 1) / 2 > MAX_ELEMENTS_PER_PATTERN with hwarned
    set nl := if warned then min n0 (MAX_ELEMENTS_PER_PATTERN * 2) else n0 with hnl
    have hnl1 : 1 ≤ nl := by
      rw [hnl]
      split
      · exact le_min (pyMax1Int_pos _) (by norm_num [MAX_ELEMENTS_PER_PATTERN])
      · exact pyMax1Int_pos _
    rw [Except.ok.injEq, Prod.mk.injEq] at hok
    obtain ⟨hlst, -⟩ := hok
    intro p hp
    rw [← hlst] at hp
    simp only [List.mem_map] at hp
    obtain ⟨i, hi, rfl⟩ := hp
    have hirange : i < nl ∧ i % 2 = 0 := by
      simpa [pyRangeStep2, List.mem_filter] using hi
    by_cases h1 : 1 < nl
    · simp only [if_pos h1]
      have hmax : (max 1 (nl - 1) : ℕ) = nl - 1 := by omega
      have hcast : ((nl : ℝ) - 1) = ((nl - 1 : ℕ) : ℝ) := by
        push_cast [Nat.cast_sub hnl1]; ring
      have hne : ((nl - 1 : ℕ) : ℝ) ≠ 0 := by
        have h2 : 1 ≤ nl - 1 := by omega
        positivity
      rw [hmax, hcast]
      have hcancel : ((nl - 1 : ℕ) : ℝ) * (w / ((nl - 1 : ℕ) : ℝ)) = w := by
        rw [mul_comm, div_mul_cancel₀ w hne]
      have hstart : x0 + (w - ((nl - 1 : ℕ) : ℝ) * (w / ((nl - 1 : ℕ) : ℝ))) / 2 = x0 := by
        rw [hcancel]; ring
      rw [hstart]
      have has0 : 0 ≤ w / ((nl - 1 : ℕ) : ℝ) := by positivity
      have hile : (i : ℝ) ≤ ((nl - 1 : ℕ) : ℝ) := by
        exact_mod_cast Nat.le_sub_one_of_lt hirange.1
      have hxlo : (0 : ℝ) ≤ (i : ℝ) * (w / ((nl - 1 : ℕ) : ℝ)) := by positivity
      have hxhi : (i : ℝ) * (w / ((nl - 1 : ℕ) : ℝ)) ≤ w := by
        calc (i : ℝ) * (w / ((nl - 1 : ℕ) : ℝ))
            ≤ ((nl - 1 : ℕ) : ℝ) * (w / ((nl - 1 : ℕ) : ℝ)) :=
              mul_le_mul_of_nonneg_right hile has0
          _ = w := hcancel
      simp only [inSection]
      refine ⟨by linarith, by linarith, by linarith, by linarith⟩
    · simp only [if_neg h1]
      simp only [inSection]
      refine ⟨by linarith, by linarith, by linarith, by linarith⟩

/-- C4 witness: the slab-containment theorem at the default parameters on the
section [0,2] × [0,2]: every drawn rect lies within
[−0.0005, 2.0005] × [0, 2]. -/
theorem C4_bounds_amended_witness :
    ((none : Option LPOrientation).getD .vertical = .vertical) ∧
    (0 : ℝ) < 2 ∧ (0 : ℝ) ≤ (none : Option ℝ).getD 1.0 ∧
    (∀ p ∈ (pyRangeStep2 400).map (fun i : ℕ =>
        Prim.rect ((i : ℝ) * (2 / 399) - 0.0005) 0 0.001 2 true),
      inSection (0 - (none : Option ℝ).getD 1.0 / 1000 / 2) 0
        (2 + (none : Option ℝ).getD 1.0 / 1000) 2 p) :=
  ⟨rfl, by norm_num, by norm_num,
   C4_bounds_amended none none none 0 0 2 2 _ false rfl (by norm_num) (by norm_num)
     linePair_single_at_2mm⟩

/-- C5: the resolution dot array on a 20 mm × 20 mm section at the origin:
cols = rows = floor(20 / 0.25) = 80 with no density warning, exactly
80 · 80 = 6400 filled circles of radius 0.0625 mm, at the exact-fit spacings
20/79 = width/(cols−1) and 20/79 = height/(rows−1), every center inside
[0, 20] × [0, 20] (spanning 0 through 20 in each axis). -/
theorem C5_resolution_dot_array :
    resolutionColsRows 20 20 = .ok (80, 80, false) ∧
    resolution_generate_svg_elements none none 0 0 20 20 =
      .ok (resolutionDotGrid 0 0 20 20 80 80, false) ∧
    resolutionDotGrid 0 0 20 20 80 80 =
      (List.range 80).flatMap (fun row : ℕ => (List.range 80).map (fun col : ℕ =>
        Prim.circle ((col : ℝ) * (20 / 79)) ((row : ℝ) * (20 / 79)) 0.0625 true)) ∧
    (resolutionDotGrid 0 0 20 20 80 80).length = 6400 ∧
    (∀ p ∈ resolutionDotGrid 0 0 20 20 80 80, ∃ row col : ℕ, row < 80 ∧ col < 80 ∧
      p = Prim.circle ((col : ℝ) * (20 / 79)) ((row : ℝ) * (20 / 79)) 0.0625 true ∧
      0 ≤ (col : ℝ) * (20 / 79) ∧ (col : ℝ) * (20 / 79) ≤ 20 ∧
      0 ≤ (row : ℝ) * (20 / 79) ∧ (row : ℝ) * (20 / 79) ≤ 20) := by
  refine ⟨resolutionColsRows_at_20, ?_, resolutionDotGrid_at_20, ?_, ?_⟩
  · simp only [resolution_generate_svg_elements, resolutionColsRows_at_20]
  · rw [resolutionDotGrid_at_20,
      length_range_flatMap_map 80 80 (fun row col =>
        Prim.circle ((col : ℝ) * (20 / 79)) ((row : ℝ) * (20 / 79)) 0.0625 true)]
  · intro p hp
    rw [resolutionDotGrid_at_20] at hp
    simp only [List.mem_flatMap, List.mem_range, List.mem_map] at hp
    obtain ⟨row, hrow, col, hcol, rfl⟩ := hp
    have hc79 : (col : ℝ) ≤ 79 := by exact_mod_cast Nat.lt_succ_iff.mp hcol
    have hr79 : (row : ℝ) ≤ 79 := by exact_mod_cast Nat.lt_succ_iff.mp hrow
    refine ⟨row, col, hrow, hcol, rfl, by positivity, ?_, by positivity, ?_⟩
    · nlinarith
    · nlinarith

/-- C6 counterexample: in the single-frequency case (5 µm spacing, 1 µm width,
vertical, 2 mm section) one drawn line is centered exactly on the section's
left edge while every drawn center is at least 2/399 mm short of the right
edge: the drawn lines are left-anchored, not centered across the section. -/
theorem C6_single_lines_cex :
    ∃ lst, linePair_single_svg none none none 0 0 2 2 = .ok (lst, false) ∧
      (∃ p ∈ lst, Prim.rectCenterX p = 0) ∧
      (∀ p ∈ lst, Prim.rectCenterX p ≤ 2 - 2 / 399) ∧
      (0 : ℝ) < 2 / 399 := by
  refine ⟨_, linePair_single_at_2mm, ?_, ?_, by norm_num⟩
  · refine ⟨Prim.rect (((0 : ℕ) : ℝ) * (2 / 399) - 0.0005) 0 0.001 2 true, ?_, ?_⟩
    · exact List.mem_map_of_mem _ (show (0 : ℕ) ∈ pyRangeStep2 400 by decide)
    · simp [Prim.rectCenterX]
      norm_num
  · intro p hp
    simp only [List.mem_map] at hp
    obtain ⟨i, hi, rfl⟩ := hp
    have hmem : i < 400 ∧ i % 2 = 0 := by
      simpa [pyRangeStep2, List.mem_filter] using hi
    have h398 : i ≤ 398 := by omega
    have hle : (i : ℝ) ≤ 398 := by exact_mod_cast h398
    simp only [Prim.rectCenterX]
    nlinarith

/-- C6 amended: num_lines = floor(2 / 0.005) = 400 and exactly the 200 even
grid indices are drawn, as full-height rects of width 0.001 mm with centers at
i · (2/399): evenly spaced 4/399 apart, pairwise non-overlapping, anchored at
the left section edge and ending 2/399 short of the right edge (the full
400-line grid spans the section exactly; the drawn subset is left-anchored,
not centered). -/
theorem C6_single_lines_amended :
    pyMax1Int ((2 : ℝ) / (5.0 / 1000)) = 400 ∧
    ∃ lst, linePair_single_svg none none none 0 0 2 2 = .ok (lst, false) ∧
      lst.length = 200 ∧
      (∀ p ∈ lst, ∃ i : ℕ, i < 400 ∧ i % 2 = 0 ∧
        p = Prim.rect ((i : ℝ) * (2 / 399) - 0.0005) 0 0.001 2 true ∧
        Prim.rectCenterX p = (i : ℝ) * (2 / 399) ∧ Prim.rectW p = 0.001) ∧
      (∀ p ∈ lst, ∀ q ∈ lst, p ≠ q → rectsSeparated p q) ∧
      (∃ p ∈ lst, Prim.rectCenterX p = 0) ∧
      (∀ p ∈ lst, Prim.rectCenterX p ≤ 2 - 2 / 399) := by
  refine ⟨by unfold pyMax1Int pyInt; norm_num; rfl, _, linePair_single_at_2mm,
    ?_, ?_, ?_, ?_, ?_⟩
  · rw [List.length_map, length_pyRangeStep2]
  · intro p hp
    simp only [List.mem_map] at hp
    obtain ⟨i, hi, rfl⟩ := hp
    have hmem : i < 400 ∧ i % 2 = 0 := by
      simpa [pyRangeStep2, List.mem_filter] using hi
    refine ⟨i, hmem.1, hmem.2, rfl, ?_, rfl⟩
    simp [Prim.rectCenterX]
    norm_num
  · intro p hp q hq hne
    simp only [List.mem_map] at hp hq
    obtain ⟨i, hi, rfl⟩ := hp
    obtain ⟨j, hj, rfl⟩ := hq
    have hmi : i < 400 ∧ i % 2 = 0 := by simpa [pyRangeStep2, List.mem_filter] using hi
    have hmj : j < 400 ∧ j % 2 = 0 := by simpa [pyRangeStep2, List.mem_filter] using hj
    have hij : i ≠ j := by
      rintro rfl
      exact hne rfl
    simp only [rectsSeparated]
    rcases Nat.lt_trichotomy i j with hlt | heq | hgt
    · have h2 : i + 2 ≤ j := by omega
      have hc : (i : ℝ) + 2 ≤ (j : ℝ) := by exact_mod_cast h2
      left
      nlinarith
    · exact absurd heq hij
    · have h2 : j + 2 ≤ i := by omega
      have hc : (j : ℝ) + 2 ≤ (i : ℝ) := by exact_mod_cast h2
      right; left
      nlinarith
  · refine ⟨Prim.rect (((0 : ℕ) : ℝ) * (2 / 399) - 0.0005) 0 0.001 2 true,
      List.mem_map_of_mem _ (show (0 : ℕ) ∈ pyRangeStep2 400 by decide), ?_⟩
    simp [Prim.rectCenterX]
    norm_num
  · intro p hp
    simp only [List.mem_map] at hp
    obtain ⟨i, hi, rfl⟩ := hp
    have hmem : i < 400 ∧ i % 2 = 0 := by simpa [pyRangeStep2, List.mem_filter] using hi
    have h398 : i ≤ 398 := by omega
    have hle : (i : ℝ) ≤ 398 := by exact_mod_cast h398
    simp only [Prim.rectCenterX]
    nlinarith

/-- C7 counterexample: sub-cell 0 of the multi-frequency chart on a
30 mm × 30 mm section (10 mm × 10 mm sub-cell) renders exactly 3 filled
lines — not `2 · n_pairs` with `n_pairs = max(5, ...) ≥ 5`, which would
require at least 10. -/
theorem C7_multi_lines_cex :
    ((linePair_multi_cell 0 0 30 30 0).countP Prim.isFilledRect) = 3 ∧ (3 : ℕ) < 2 * 5 := by
  refine ⟨?_, by norm_num⟩
  simp only [linePair_multi_cell, pattern_configs, List.getElem?_cons_zero]
  rw [List.countP_append]
  have h1 : ((generate_targeted_lines_svg (0 + ((0 % 3 : ℕ) : ℝ) * (30 / 3))
      (0 + ((0 / 3 : ℕ) : ℝ) * (30 / 3)) (30 / 3) (30 / 3)
      (LPConfig.mk 7.0 3 0).spacing_um ((LPConfig.mk 7.0 3 0).spacing_um * 0.3)
      (LPConfig.mk 7.0 3 0).orientation (LPConfig.mk 7.0 3 0).target_lines).countP
        Prim.isFilledRect) = min 3 25 := by
    refine targeted_svg_angle0_count _ _ _ _ _ _ _ (by norm_num) (by norm_num [min_self]) ?_
    intro i hi
    have hi3 : i < 3 := by simpa using hi
    have hile : (i : ℝ) ≤ 2 := by exact_mod_cast Nat.lt_succ_iff.mp hi3
    norm_num [min_self]
    nlinarith
  rw [h1]
  norm_num
  exact ⟨rfl, rfl, rfl, rfl⟩

/-- C7 amended: the multi mode uses the fixed 3×3 `pattern_configs` table; a
sub-cell renders `min(target_lines, 25)` lines (all fitting here), each of
thickness `0.3 · spacing_um / 1000` mm — not `2 · max(5, ...)` lines of
thickness `0.5 · half-period`. On the 30 mm × 30 mm section: sub-cell 0
(spacing 7 µm, 3 targeted, 0°) renders 3 lines of thickness 0.0021 mm, and
sub-cell 5 (spacing 0.7 µm, 20 targeted, 90°) renders 20 lines of thickness
0.00021 mm. -/
theorem C7_multi_lines_amended :
    ((linePair_multi_cell 0 0 30 30 0).countP Prim.isFilledRect) = min 3 25 ∧
    (∀ p ∈ linePair_multi_cell 0 0 30 30 0, Prim.isFilledRect p = true →
      Prim.rectH p = 7.0 * 0.3 / 1000) ∧
    ((linePair_multi_cell 0 0 30 30 5).countP Prim.isFilledRect) = min 20 25 ∧
    (∀ p ∈ linePair_multi_cell 0 0 30 30 5, Prim.isFilledRect p = true →
      Prim.rectW p = 0.7 * 0.3 / 1000) := by
  refine ⟨?_, ?_, ?_, ?_⟩
  · simp only [linePair_multi_cell, pattern_configs, List.getElem?_cons_zero]
    rw [List.countP_append]
    have h1 : ((generate_targeted_lines_svg (0 + ((0 % 3 : ℕ) : ℝ) * (30 / 3))
        (0 + ((0 / 3 : ℕ) : ℝ) * (30 / 3)) (30 / 3) (30 / 3)
        (LPConfig.mk 7.0 3 0).spacing_um ((LPConfig.mk 7.0 3 0).spacing_um * 0.3)
        (LPConfig.mk 7.0 3 0).orientation (LPConfig.mk 7.0 3 0).target_lines).countP
          Prim.isFilledRect) = min 3 25 := by
      refine targeted_svg_angle0_count _ _ _ _ _ _ _ (by norm_num) (by norm_num [min_self]) ?_
      intro i hi
      have hi3 : i < 3 := by simpa using hi
      have hile : (i : ℝ) ≤ 2 := by exact_mod_cast Nat.lt_succ_iff.mp hi3
      norm_num [min_self]
      nlinarith
    rw [h1]
    norm_num
    exact ⟨rfl, rfl, rfl, rfl⟩
  · intro p hp hfill
    simp only [linePair_multi_cell, pattern_configs, List.getElem?_cons_zero] at hp
    rcases List.mem_append.mp hp with hmem | hmem
    · obtain ⟨yy, rfl⟩ := targeted_svg_angle0_shape _ _ _ _ _ _ _ _ hmem
      simp [Prim.rectH]
    · simp only [List.mem_cons, List.not_mem_nil, or_false] at hmem
      rcases hmem with rfl | rfl | rfl | rfl <;> simp [Prim.isFilledRect] at hfill
  · simp only [linePair_multi_cell, pattern_configs, List.getElem?_cons_succ,
      List.getElem?_cons_zero]
    rw [List.countP_append]
    have h1 : ((generate_targeted_lines_svg (0 + ((5 % 3 : ℕ) : ℝ) * (30 / 3))
        (0 + ((5 / 3 : ℕ) : ℝ) * (30 / 3)) (30 / 3) (30 / 3)
        (LPConfig.mk 0.7 20 90).spacing_um ((LPConfig.mk 0.7 20 90).spacing_um * 0.3)
        (LPConfig.mk 0.7 20 90).orientation (LPConfig.mk 0.7 20 90).target_lines).countP
          Prim.isFilledRect) = min 20 25 := by
      refine targeted_svg_angle90_count _ _ _ _ _ _ _ (by norm_num) (by norm_num [min_self]) ?_
      intro i hi
      have hi20 : i < 20 := by simpa using hi
      have hile : (i : ℝ) ≤ 19 := by exact_mod_cast Nat.lt_succ_iff.mp hi20
      norm_num [min_self]
      nlinarith
    rw [h1]
    norm_num
    exact ⟨rfl, rfl, rfl, rfl⟩
  · intro p hp hfill
    simp only [linePair_multi_cell, pattern_configs, List.getElem?_cons_succ,
      List.getElem?_cons_zero] at hp
    rcases List.mem_append.mp hp with hmem | hmem
    · obtain ⟨xx, rfl⟩ := targeted_svg_angle90_shape _ _ _ _ _ _ _ _ hmem
      simp [Prim.rectW]
    · simp only [List.mem_cons, List.not_mem_nil, or_false] at hmem
      rcases hmem with rfl | rfl | rfl | rfl <;> simp [Prim.isFilledRect] at hfill

/-- C8: the distortion checkerboard with grid size 1 mm on a 10 mm × 10 mm
section at the origin: cols = rows = 10 with no warning, exact-fit 1 × 1
cells anchored at the section origin, exactly 50 filled cells (those with
row + col even), pairwise interior-disjoint, and no two filled cells share an
edge — they touch at most diagonally. -/
theorem C8_checkerboard :
    distortionColsRows (some 1.0) 10 10 = .ok (10, 10, false) ∧
    distortion_generate_svg_elements (some 1.0) 0 0 10 10 =
      .ok (distortionCells 0 0 10 10 10 10, false) ∧
    distortionCells 0 0 10 10 10 10 =
      (List.range 10).flatMap (fun row : ℕ => (List.range 10).filterMap (fun col : ℕ =>
        if (row + col) % 2 = 0 then some (Prim.rect ((col : ℝ)) ((row : ℝ)) 1 1 true)
        else none)) ∧
    (distortionCells 0 0 10 10 10 10).length = 50 ∧
    (∀ p ∈ distortionCells 0 0 10 10 10 10, ∀ q ∈ distortionCells 0 0 10 10 10 10,
      p ≠ q → rectsSeparated p q) ∧
    (∀ p ∈ distortionCells 0 0 10 10 10 10, ∀ q ∈ distortionCells 0 0 10 10 10 10,
      ¬ rectsEdgeAdjacent p q) := by
  refine ⟨distortionColsRows_at_10, ?_, distortionCells_at_10, ?_, ?_, ?_⟩
  · simp only [distortion_generate_svg_elements, distortionColsRows_at_10]
  · rw [distortionCells_at_10, grid_filterMap_length 10 10 (fun r c => (r + c) % 2 = 0)
      (fun r c => Prim.rect ((c : ℝ)) ((r : ℝ)) 1 1 true)]
    decide
  · intro p hp q hq hne
    obtain ⟨r, c, hr, hc, hpar, rfl⟩ := distortionCells_at_10_mem p hp
    obtain ⟨r', c', hr', hc', hpar', rfl⟩ := distortionCells_at_10_mem q hq
    have hdist : ¬(r = r' ∧ c = c') := by
      rintro ⟨rfl, rfl⟩
      exact hne rfl
    simp only [rectsSeparated]
    rcases Nat.lt_trichotomy r r' with hlt | heq | hgt
    · have hcast : (r : ℝ) + 1 ≤ (r' : ℝ) := by exact_mod_cast hlt
      tauto
    · subst heq
      have hcc : c ≠ c' := fun hh => hdist ⟨rfl, hh⟩
      rcases Nat.lt_or_ge c c' with hlt | hge
      · have hcast : (c : ℝ) + 1 ≤ (c' : ℝ) := by exact_mod_cast hlt
        tauto
      · have hcgt : c' < c := lt_of_le_of_ne hge (Ne.symm hcc)
        have hcast : (c' : ℝ) + 1 ≤ (c : ℝ) := by exact_mod_cast hcgt
        tauto
    · have hcast : (r' : ℝ) + 1 ≤ (r : ℝ) := by exact_mod_cast hgt
      tauto
  · intro p hp q hq hadj
    obtain ⟨r, c, hr, hc, hpar, rfl⟩ := distortionCells_at_10_mem p hp
    obtain ⟨r', c', hr', hc', hpar', rfl⟩ := distortionCells_at_10_mem q hq
    simp only [rectsEdgeAdjacent] at hadj
    rcases hadj with ⟨hy, -, hx⟩ | ⟨hx, -, hy⟩
    · have hrr : r = r' := by exact_mod_cast hy
      rcases hx with h1 | h1
      · have : c + 1 = c' := by exact_mod_cast h1
        omega
      · have : c' + 1 = c := by exact_mod_cast h1
        omega
    · have hcc : c = c' := by exact_mod_cast hx
      rcases hy with h1 | h1
      · have : r + 1 = r' := by exact_mod_cast h1
        omega
      · have : r' + 1 = r := by exact_mod_cast h1
        omega

/-- C9 counterexample: with plate 10 × 10 and margin 5 the claim's condition
`2 · margin ≥ min(width, height)` holds, yet generation does not fail with
`InvalidDimension` — the margin bound is never validated. -/
theorem C9_invalid_dimension_cex :
    generate_svg_model 10 10 5 ≠ .error .invalidDimension ∧
    2 * (5 : ℝ) ≥ min 10 10 ∧ (0 : ℝ) < 10 := by
  refine ⟨?_, by norm_num, by norm_num⟩
  unfold generate_svg_model
  rw [if_neg (by norm_num)]
  cases hg : generatePlateContents 10 10 5 with
  | error e => simp
  | ok l => simp

/-- C9 amended: `generate_svg` fails with `InvalidDimension` exactly when
plate width ≤ 0 or height ≤ 0; that check runs before the section layout and
before any pattern generation, but the condition `2 · margin ≥ min(w, h)` is
never validated — such configurations proceed to generate (degenerate)
output. -/
theorem C9_invalid_dimension_amended (w h m : ℝ) :
    generate_svg_model w h m = .error .invalidDimension ↔ (w ≤ 0 ∨ h ≤ 0) := by
  unfold generate_svg_model
  split
  · rename_i hcond
    simp [hcond]
  · rename_i hcond
    constructor
    · intro hcontra
      cases hg : generatePlateContents w h m with
      | error e => rw [hg] at hcontra; simp at hcontra
      | ok l => rw [hg] at hcontra; simp at hcontra
    · intro hcond2
      exact absurd hcond2 hcond

/-- C10: the resolution generator's output is independent of the supplied
parameter dictionary — both the SVG and the DXF variants hard-code
dot_spacing = 0.25 mm and dot_diameter = 0.125 mm and never read the
parameters, so any two parameter choices (present or absent keys) give
identical output on every section. -/
theorem C10_resolution_params_ignored (ds1 dd1 ds2 dd2 : Option ℝ)
    (x_offset y_offset section_width section_height : ℝ) :
    resolution_generate_svg_elements ds1 dd1 x_offset y_offset section_width section_height =
      resolution_generate_svg_elements ds2 dd2 x_offset y_offset section_width section_height ∧
    resolution_generate_dxf_elements ds1 dd1 x_offset y_offset section_width section_height =
      resolution_generate_dxf_elements ds2 dd2 x_offset y_offset section_width section_height :=
  ⟨rfl, rfl⟩

end CalibrationPlate
